import Mathlib

/-!
Shallow embedding of the `internal/connection` package of the deploydb-agent
repository, together with theorems that settle the specified properties of
the backoff calculator, the connection client, and the connection manager.

Conventions of the embedding:
* Go `time.Duration` is an `int64` nanosecond count; it is modelled as `Int`.
* Go `float64` arithmetic in the backoff calculator is modelled exactly over
  `ℚ`; the conversion `time.Duration(f)` discards the fraction (truncation
  toward zero), modelled by `goTrunc`.
* Go `interface{}` values produced by `json.Unmarshal` are modelled by the
  JSON-like value type `JVal` (numbers decode to `float64`, modelled as `ℚ`;
  objects to association lists).
* Fallible operations return `Except`; the distinct `fmt.Errorf` sites of
  `Client.Connect` become distinct constructors recording exactly the data
  interpolated into the corresponding format string.
-/

namespace DeploydbAgent

/-- Truncation toward zero of a rational number: the model of Go's
conversion `time.Duration(f)` / `int64(f)` of a `float64`, which discards
the fractional part. -/
def goTrunc (q : ℚ) : Int := if 0 ≤ q then ⌊q⌋ else ⌈q⌉

/-- State of the backoff calculator (`backoff` in the source): initial delay,
maximum delay, multiplier and current delay, all durations in nanoseconds. -/
structure Backoff where
  initial : Int
  max : Int
  multiplier : ℚ
  current : Int

/-- Model of `newBackoff`: the current delay starts at the initial delay. -/
def newBackoff (initial max : Int) (multiplier : ℚ) : Backoff :=
  { initial := initial, max := max, multiplier := multiplier, current := initial }

/-- Model of `backoff.Next`: return the current delay, then advance it to
`current * multiplier` (as `float64`, truncated back to a duration), capped
at the maximum. -/
def Backoff.next (b : Backoff) : Int × Backoff :=
  let d := b.current
  let c0 := goTrunc ((b.current : ℚ) * b.multiplier)
  let c1 := if c0 > b.max then b.max else c0
  (d, { b with current := c1 })

/-- Model of `backoff.Reset`: the current delay returns to the initial delay. -/
def Backoff.reset (b : Backoff) : Backoff := { b with current := b.initial }

/-- The backoff state after `n` successive `Next()` calls. -/
def Backoff.after (b : Backoff) : Nat → Backoff
  | 0 => b
  | n + 1 => ((b.after n).next).2

/-- The value returned by the `(n+1)`-st successive `Next()` call. -/
def Backoff.out (b : Backoff) (n : Nat) : Int := ((b.after n).next).1

/-- One millisecond, as a `time.Duration` nanosecond count. -/
def msDur (n : Int) : Int := n * 1000000

/-- The configuration of the first testable property of the spec:
initial 100ms, max 1000ms, multiplier 2. -/
def b100 : Backoff := newBackoff (msDur 100) (msDur 1000) 2

/-- A backoff calculator with a negative initial delay: initial −1s, max 0,
multiplier 2. It satisfies the hypotheses of C5 as stated (initial ≤ max,
multiplier ≥ 1) yet its output sequence decreases. -/
def bNeg : Backoff := newBackoff (-1000000000) 0 2

/-- JSON-like values: the model of Go `interface{}` data produced by
`json.Unmarshal`, in which every JSON number becomes a `float64` (modelled
as `ℚ`) and every JSON object becomes a `map[string]interface{}` (modelled
as an association list with unique keys). -/
inductive JVal where
  | null
  | bool (b : Bool)
  | num (q : ℚ)
  | str (s : String)
  | arr (elems : List JVal)
  | obj (fields : List (String × JVal))

/-- Indexing a decoded JSON object by key, the model of Go map indexing. -/
def jlookup (fields : List (String × JVal)) (k : String) : Option JVal :=
  match fields with
  | [] => none
  | (k', v) :: rest => if k' = k then some v else jlookup rest k

/-- Model of the Go type assertion `.(string)`. -/
def JVal.asString? : JVal → Option String
  | .str s => some s
  | _ => none

/-- Model of the Go type assertion `.(float64)` (every decoded JSON number). -/
def JVal.asNum? : JVal → Option ℚ
  | .num q => some q
  | _ => none

/-- Model of the Go type assertion `.(map[string]interface{})`. -/
def JVal.asObj? : JVal → Option (List (String × JVal))
  | .obj f => some f
  | _ => none

/-- Go `json.Unmarshal` of a JSON object field into a `string` struct field:
a missing or null field keeps the zero value; a non-string value is a type
error. -/
def decodeStringField (fields : List (String × JVal)) (key : String) :
    Except String String :=
  match jlookup fields key with
  | none => .ok ""
  | some .null => .ok ""
  | some (.str s) => .ok s
  | some _ => .error ("cannot unmarshal field " ++ key ++ " into string")

/-- Go `json.Unmarshal` of a JSON object field into an `int` struct field:
a missing or null field keeps the zero value; a non-integral or non-numeric
value is a type error. -/
def decodeIntField (fields : List (String × JVal)) (key : String) :
    Except String Int :=
  match jlookup fields key with
  | none => .ok 0
  | some .null => .ok 0
  | some (.num q) => if q.den = 1 then .ok q.num
      else .error ("cannot unmarshal field " ++ key ++ " into int")
  | some _ => .error ("cannot unmarshal field " ++ key ++ " into int")

/-- Go `json.Unmarshal` of a JSON object field into a `bool` struct field. -/
def decodeBoolField (fields : List (String × JVal)) (key : String) :
    Except String Bool :=
  match jlookup fields key with
  | none => .ok false
  | some .null => .ok false
  | some (.bool b) => .ok b
  | some _ => .error ("cannot unmarshal field " ++ key ++ " into bool")

/-- Go `json.Unmarshal` of a JSON object field into a
`map[string]interface{}` struct field (a missing or null field leaves the
map nil, modelled as the empty list). -/
def decodeObjField (fields : List (String × JVal)) (key : String) :
    Except String (List (String × JVal)) :=
  match jlookup fields key with
  | none => .ok []
  | some .null => .ok []
  | some (.obj f) => .ok f
  | some _ => .error ("cannot unmarshal field " ++ key ++ " into map")

/-- Structure `WelcomePayload` of `types.go`: server id, metrics interval (seconds),
optional signing public key, commands-enabled flag. -/
structure WelcomePayload where
  serverID : String
  metricsIntervalSeconds : Int
  signingPublicKey : String
  commandsEnabled : Bool

/-- Strict decode of a `welcome` payload, the model of
`json.Unmarshal(payloadBytes, &welcome)` in `Client.waitForWelcome`:
any field of the wrong JSON type is an error, and only the error case is
observed by the caller (fields are assigned only after a nil error). -/
def decodeWelcomePayload : JVal → Except String WelcomePayload
  | .null => .ok ⟨"", 0, "", false⟩
  | .obj f => do
      let sid ← decodeStringField f "server_id"
      let mi ← decodeIntField f "metrics_interval_seconds"
      let spk ← decodeStringField f "signing_public_key"
      let ce ← decodeBoolField f "commands_enabled"
      .ok ⟨sid, mi, spk, ce⟩
  | _ => .error "cannot unmarshal payload into WelcomePayload"

/-- Structure `ErrorPayload` of `types.go`: code, human message, optional
retry-after hint. -/
structure ErrorPayload where
  code : String
  message : String
  retryAfterSeconds : Int

/-- Best-effort decode of an `error` payload: at the call sites in
`Client.waitForWelcome` and `Client.handleMessage` the `json.Unmarshal`
error is discarded, so each field keeps its zero value unless a value of
the right type is present. -/
def decodeErrorPayloadLossy (p : JVal) : ErrorPayload :=
  match p with
  | .obj f =>
      { code := ((jlookup f "code").bind JVal.asString?).getD ""
        message := ((jlookup f "message").bind JVal.asString?).getD ""
        retryAfterSeconds :=
          match (jlookup f "retry_after_seconds").bind JVal.asNum? with
          | some q => if q.den = 1 then q.num else 0
          | none => 0 }
  | _ => ⟨"", "", 0⟩

/-- Structure `Command` of `types.go`: the value handed to the command handler.
`timestampMs` models the `time.Time` built by `time.UnixMilli`; the Go zero
`time.Time` is modelled as 0. -/
structure Command where
  id : String
  serverID : String
  command : String
  params : List (String × JVal)
  nonce : String
  timestampMs : Int
  signature : String
  rawPayload : List (String × JVal)

/-- The distinct failure values of `Client.Connect`, one constructor per
`fmt.Errorf` site, each recording exactly the data interpolated into the
corresponding format string (see `ConnectError.errString`). -/
inductive ConnectError where
  | clientClosed
  | dialFailed (detail : String)
  | sendHelloFailed (detail : String)
  | readFailed (detail : String)
  | unmarshalFailed (detail : String)
  | welcomeDecodeFailed (detail : String)
  | serverError (code message : String)
  | unexpectedType (t : String)

/-- The exact `error` strings produced by the `fmt.Errorf` sites of
`Client.Connect` and `Client.waitForWelcome`, with `Connect`'s wrapping
applied. The `serverError` string carries only the code and the message:
the decoded `retry_after_seconds` is never interpolated. -/
def ConnectError.errString : ConnectError → String
  | .clientClosed => "client is closed"
  | .dialFailed d => "dial: " ++ d
  | .sendHelloFailed d => "send agent_hello: " ++ d
  | .readFailed d => "wait for welcome: read message: " ++ d
  | .unmarshalFailed d => "wait for welcome: unmarshal message: " ++ d
  | .welcomeDecodeFailed d => "wait for welcome: unmarshal welcome: " ++ d
  | .serverError c m => "wait for welcome: server error: " ++ c ++ " - " ++ m
  | .unexpectedType t => "wait for welcome: unexpected message type: " ++ t

/-- The spec's protocol-violation class: any handshake failure other than a
dial failure, a hello-send failure or an explicit server rejection. -/
def ConnectError.isProtocolViolation : ConnectError → Bool
  | .readFailed _ => true
  | .unmarshalFailed _ => true
  | .welcomeDecodeFailed _ => true
  | .unexpectedType _ => true
  | _ => false

/-- The first reply observed by `Client.waitForWelcome`: a read error or
timeout, a frame that fails to decode as a `Message` envelope, or a decoded
envelope with its type tag and payload. -/
inductive FirstReply where
  | readError (detail : String)
  | badFrame (detail : String)
  | frame (t : String) (payload : JVal)

/-- The shared mutable fields of `Client`: the `conn` pointer
(`connPresent`), whether the underlying websocket transport is still open
(`transportOpen`), the `closed` flag, the four handshake fields, and the
buffered `commands` channel (capacity 10). -/
structure ClientState where
  connPresent : Bool
  transportOpen : Bool
  closed : Bool
  serverID : String
  metricsIntervalSeconds : Int
  signingPublicKey : String
  commandsEnabled : Bool
  commands : List Command
  commandsChClosed : Bool

/-- Model of `NewClient`: no transport, empty command queue. -/
def newClient : ClientState :=
  { connPresent := false, transportOpen := false, closed := false,
    serverID := "", metricsIntervalSeconds := 0, signingPublicKey := "",
    commandsEnabled := false, commands := [], commandsChClosed := false }

/-- Model of `Client.IsConnected`: `c.conn != nil && !c.closed`. Note that
it consults the `conn` pointer, not the transport's liveness. -/
def ClientState.isConnected (c : ClientState) : Bool :=
  c.connPresent && !c.closed

/-- Model of `Client.waitForWelcome`: exactly one reply is read; a `welcome`
reply populates the four handshake fields, an `error` reply becomes a server
error carrying the decoded code and message, and anything else fails. The
connection is not touched here (the caller closes it on error). -/
def waitForWelcome (reply : FirstReply) (c : ClientState) :
    Except ConnectError Unit × ClientState :=
  match reply with
  | .readError d => (.error (.readFailed d), c)
  | .badFrame d => (.error (.unmarshalFailed d), c)
  | .frame t p =>
      if t = "welcome" then
        match decodeWelcomePayload p with
        | .error d => (.error (.welcomeDecodeFailed d), c)
        | .ok w =>
            let c' := { c with
              serverID := w.serverID,
              metricsIntervalSeconds := w.metricsIntervalSeconds,
              signingPublicKey := w.signingPublicKey,
              commandsEnabled := w.commandsEnabled }
            (.ok (), c')
      else if t = "error" then
        let e := decodeErrorPayloadLossy p
        (.error (.serverError e.code e.message), c)
      else (.error (.unexpectedType t), c)

/-- The environment of one `Client.Connect` call: the outcome of the dial,
the outcome of the `agent_hello` write, and the first reply. -/
structure ConnectEnv where
  dialOk : Bool
  dialDetail : String
  helloSendOk : Bool
  helloDetail : String
  reply : FirstReply

/-- Model of `Client.Connect`: refuse when closed; dial (on failure `conn`
is never assigned); assign `conn`; send `agent_hello` (on failure the
transport is closed but `conn` stays assigned); wait for the welcome (on
failure the transport is closed but `conn` stays assigned); on success the
read loop is spawned and nil is returned. -/
def connect (env : ConnectEnv) (c : ClientState) :
    Except ConnectError Unit × ClientState :=
  if c.closed then (.error .clientClosed, c)
  else if !env.dialOk then (.error (.dialFailed env.dialDetail), c)
  else
    let c1 := { c with connPresent := true, transportOpen := true }
    if !env.helloSendOk then
      (.error (.sendHelloFailed env.helloDetail), { c1 with transportOpen := false })
    else
      match waitForWelcome env.reply c1 with
      | (.error e, c2) => (.error e, { c2 with transportOpen := false })
      | (.ok _, c2) => (.ok (), c2)

/-- A connect attempt whose dial and hello write succeed, so that the
outcome is decided entirely by the first reply. -/
def connectWithReply (r : FirstReply) : Except ConnectError Unit × ClientState :=
  connect { dialOk := true, dialDetail := "",
            helloSendOk := true, helloDetail := "", reply := r } newClient

/-- An `error` first reply with the given retry-after hint. -/
def rejectReply (retry : Int) : FirstReply :=
  .frame "error" (.obj [("code", .str "invalid_token"),
    ("message", .str "Invalid token"),
    ("retry_after_seconds", .num (retry : ℚ))])

/-- A well-formed `welcome` payload used as the witness input. -/
def welcomeReplyJ : JVal := .obj [("server_id", .str "srv_123"),
  ("metrics_interval_seconds", .num ((30 : Int) : ℚ)),
  ("commands_enabled", .bool true)]

/-- Structure `CommandPayload` of `types.go`: id, raw signed payload mapping,
signature. -/
structure CommandPayload where
  id : String
  signedPayload : List (String × JVal)
  signature : String

/-- Strict decode of a `command` payload, the model of
`json.Unmarshal(payloadBytes, &cmdPayload)` in `Client.handleCommand`;
on error the frame is logged and dropped. -/
def decodeCommandPayload : JVal → Except String CommandPayload
  | .null => .ok ⟨"", [], ""⟩
  | .obj f => do
      let i ← decodeStringField f "id"
      let sp ← decodeObjField f "signed_payload"
      let s ← decodeStringField f "signature"
      .ok ⟨i, sp, s⟩
  | _ => .error "cannot unmarshal payload into CommandPayload"

/-- The field extraction of `Client.handleCommand`: each `signed_payload`
entry is copied into the `Command` when present with the asserted type,
otherwise the zero value remains; the timestamp is
`time.UnixMilli(int64(ts))` for the asserted `float64` value `ts`; the
signature is kept verbatim and the raw signed-payload mapping is stored
unmodified. -/
def extractCommand (cp : CommandPayload) : Command :=
  { id := cp.id,
    serverID := ((jlookup cp.signedPayload "server_id").bind JVal.asString?).getD "",
    command := ((jlookup cp.signedPayload "command").bind JVal.asString?).getD "",
    params := ((jlookup cp.signedPayload "params").bind JVal.asObj?).getD [],
    nonce := ((jlookup cp.signedPayload "nonce").bind JVal.asString?).getD "",
    timestampMs :=
      match (jlookup cp.signedPayload "timestamp").bind JVal.asNum? with
      | some q => goTrunc q
      | none => 0,
    signature := cp.signature,
    rawPayload := cp.signedPayload }

/-- The nonblocking channel send at the end of `Client.handleCommand`: the
`commands` channel is created with capacity 10 in `NewClient`; a send on a
full channel takes the select's `default` branch, which drops the newest
command with a warning, so the read path never blocks. -/
def enqueueCommand (q : List Command) (cmd : Command) : List Command :=
  if q.length < 10 then q ++ [cmd] else q

/-- Model of `Client.handleCommand`: decode the payload, extract the
command, enqueue without blocking. -/
def handleCommand (payload : JVal) (q : List Command) : List Command :=
  match decodeCommandPayload payload with
  | .error _ => q
  | .ok cp => enqueueCommand q (extractCommand cp)

/-- A concrete command, matching the integration test's
`cmd_456`/`analyze` frame. -/
def cmd0 : Command :=
  ⟨"cmd_456", "srv_123", "analyze", [], "xyz", 0, "sig123", []⟩

/-- The signed payload of the witness command frame. -/
def signedPayload0 : List (String × JVal) :=
  [("server_id", .str "srv_123"), ("command", .str "analyze"),
   ("params", .obj [("table", .str "users")]), ("nonce", .str "xyz"),
   ("timestamp", .num ((1700000000000 : Int) : ℚ))]

/-- Model of `Client.Close`: idempotent; on the first call it marks the
client closed and closes the underlying transport. -/
def ClientState.close (c : ClientState) : ClientState :=
  if c.closed then c else { c with closed := true, transportOpen := false }

/-- One wakeup of the `Manager.runConnected` select loop: context
cancellation, the stop signal, a ping-ticker tick (with the outcome of the
ping write), a command delivered from the client's channel, the channel
being found closed, or the default branch (with whether the metrics ticker
had fired and the outcome of the metrics write). -/
inductive PhaseEvent where
  | ctxDone
  | stopSignal
  | pingTick (sendOk : Bool)
  | commandRecv (cmd : Command)
  | commandChClosed
  | idle (metricsTickFired : Bool) (metricsSendOk : Bool)

/-- State of one connected phase: the live client, whether a metrics
handler is registered, the commands delivered to `onCommand` so far, and
the number of metrics frames written successfully. -/
structure ConnectedPhase where
  client : ClientState
  metricsHandlerSet : Bool
  delivered : List Command
  metricsSent : Nat

/-- One iteration of the `Manager.runConnected` loop: `some reason` ends
the connected phase with that disconnect reason (after which `run` enters
Disconnected and reconnects); `none` continues the loop. A failed ping
closes the client and ends the phase with reason "ping failed"; a failed
metrics write is only logged and the phase continues. -/
def runConnectedStep (p : ConnectedPhase) (e : PhaseEvent) :
    Option String × ConnectedPhase :=
  match e with
  | .ctxDone => (some "context cancelled", { p with client := p.client.close })
  | .stopSignal => (some "stop requested", { p with client := p.client.close })
  | .pingTick ok =>
      if ok then (none, p)
      else (some "ping failed", { p with client := p.client.close })
  | .commandRecv cmd => (none, { p with delivered := p.delivered ++ [cmd] })
  | .commandChClosed => (some "commands channel closed", p)
  | .idle mt ok =>
      if !p.client.isConnected then (some "connection lost", p)
      else if mt && p.metricsHandlerSet then
        if ok then (none, { p with metricsSent := p.metricsSent + 1 })
        else (none, p)
      else (none, p)

/-- The connected phase over a sequence of wakeups: the first step that
signals a disconnect reason ends the phase. `none` means the events were
exhausted with the phase still running. -/
def runConnectedEvents : List PhaseEvent → ConnectedPhase →
    Option String × ConnectedPhase
  | [], p => (none, p)
  | e :: es, p =>
      match runConnectedStep p e with
      | (some r, p') => (some r, p')
      | (none, p') => runConnectedEvents es p'

/-- A client just past a successful handshake. -/
def connClient : ClientState :=
  { newClient with connPresent := true, transportOpen := true }

/-- A connected phase over `connClient` with a metrics handler. -/
def phase0 : ConnectedPhase := ⟨connClient, true, [], 0⟩

/-- The `State` enum of the manager (`StateDisconnected`, `StateConnecting`,
`StateConnected`). -/
inductive MState where
  | disconnected
  | connecting
  | connected
deriving DecidableEq

/-- Observable manager state: the current `State` value, the full state
trajectory (every value ever assigned, starting from the initial
Disconnected), and the `OnStateChange` notifications delivered so far. -/
structure MgrObs where
  state : MState
  visited : List MState
  notified : List MState

/-- Model of `Manager.setState`: the state field is always written and the
trajectory extended; the single registered observer is invoked exactly when
the value changed, once per change. -/
def setState (s : MState) (m : MgrObs) : MgrObs :=
  if m.state = s then { m with state := s, visited := m.visited ++ [s] }
  else { m with state := s, visited := m.visited ++ [s],
                notified := m.notified ++ [s] }

/-- Model of `NewManager`'s observable state: Disconnected, nothing
notified. -/
def initMgrObs : MgrObs := ⟨.disconnected, [.disconnected], []⟩

/-- The reconnect loop of `Manager.run`, up to and including entering the
connected phase: each iteration enters Connecting and attempts one
handshake; on failure it enters Disconnected, sleeps the backoff, and
retries; on success it enters Connected. -/
def runUntilConnected : List Bool → MgrObs → MgrObs
  | [], m => m
  | ok :: rest, m =>
      let m1 := setState .connecting m
      if ok then setState .connected m1
      else runUntilConnected rest (setState .disconnected m1)

/-- Structure `CommandResultPayload` of `types.go`. -/
structure CommandResultPayload where
  commandID : String
  status : String
  result : List (String × JVal)
  error : String
  durationMs : Int

/-- Outbound frames written to the transport by the client. -/
inductive OutFrame where
  | ping (timestampMs : Int)
  | metrics (timestampMs : Int) (values : List (String × ℚ))
  | commandResult (r : CommandResultPayload)

/-- The manager's client slot and state, as read by the accessor methods
(`Manager.ServerID`, `Manager.SigningPublicKey`,
`Manager.SendCommandResult`). -/
structure ManagerView where
  client : Option ClientState
  state : MState

/-- Model of `Manager.ServerID`: empty string with no live client. -/
def ManagerView.serverID (m : ManagerView) : String :=
  match m.client with
  | none => ""
  | some c => c.serverID

/-- Model of `Manager.SigningPublicKey`: empty string with no live
client. -/
def ManagerView.signingPublicKey (m : ManagerView) : String :=
  match m.client with
  | none => ""
  | some c => c.signingPublicKey

/-- Failures of the command-result send path: the manager's sentinel
`ErrNotConnected`, the client's own "not connected" error when its `conn`
is nil, and a transport write error. -/
inductive SendError where
  | notConnected
  | notConnectedClient
  | writeFailed (detail : String)

/-- Model of `Client.SendCommandResult` (via `Client.send`): fails with
"not connected" when `conn` is nil, otherwise performs one serialized
write of a `command_result` envelope. -/
def ClientState.sendCommandResult (c : ClientState) (r : CommandResultPayload)
    (writeOk : Bool) (writeDetail : String) :
    Except SendError Unit × List OutFrame :=
  if !c.connPresent then (.error .notConnectedClient, [])
  else if writeOk then (.ok (), [.commandResult r])
  else (.error (.writeFailed writeDetail), [])

/-- Model of `Manager.SendCommandResult`: with no live client it returns
`ErrNotConnected` and nothing is written; otherwise it defers to the
client. The manager state is never modified. -/
def ManagerView.sendCommandResult (m : ManagerView) (r : CommandResultPayload)
    (writeOk : Bool) (writeDetail : String) :
    Except SendError Unit × ManagerView × List OutFrame :=
  match m.client with
  | none => (.error .notConnected, m, [])
  | some c =>
      let out := c.sendCommandResult r writeOk writeDetail
      (out.1, m, out.2)

/-- A concrete command result, as sent by the integration test. -/
def result0 : CommandResultPayload := ⟨"cmd_exec_test", "success", [], "", 150⟩

/-- The synchronization state of one `Manager` lifecycle: whether `stopCh`
and `stoppedCh` have been closed, whether the `run` goroutine has returned,
and whether the transport of the currently owned connection (if any) is
open. -/
structure LifeState where
  stopClosed : Bool
  stoppedClosed : Bool
  runExited : Bool
  transportOpen : Bool

/-- A freshly constructed, started manager: both channels open, `run`
running, no transport yet. -/
def initLife : LifeState := ⟨false, false, false, false⟩

/-- The possible outcomes of one `Manager.Stop()` call. -/
inductive StopOutcome where
  | panicked
  | blocked
  | returned
deriving DecidableEq

/-- Model of `Manager.Stop`: `close(m.stopCh)` panics when `stopCh` is
already closed (Go panics on closing a closed channel); otherwise `stopCh`
is closed and the call blocks on `<-m.stoppedCh`, returning as soon as
`stoppedCh` has been closed by `run`'s deferred close. -/
def stopCall (m : LifeState) : StopOutcome × LifeState :=
  if m.stopClosed then (.panicked, m)
  else if m.stoppedClosed then (.returned, { m with stopClosed := true })
  else (.blocked, { m with stopClosed := true })

/-- The atomic transitions of the manager lifecycle. `runReturn` requires
the transport to be closed already because every return path of `run`
either calls `cleanup()` (which closes the client) or follows an exit of
`runConnected`, all of whose exit paths leave the transport closed; the
deferred `close(m.stoppedCh)` runs only after `run` returns. -/
inductive LifeStep : LifeState → LifeState → Prop
  | connectOpen (m : LifeState) : m.runExited = false →
      LifeStep m { m with transportOpen := true }
  | phaseClose (m : LifeState) :
      LifeStep m { m with transportOpen := false }
  | stopBegin (m : LifeState) : m.stopClosed = false →
      LifeStep m { m with stopClosed := true }
  | runReturn (m : LifeState) : m.runExited = false → m.transportOpen = false →
      LifeStep m { m with runExited := true }
  | closeStopped (m : LifeState) : m.runExited = true →
      LifeStep m { m with stoppedClosed := true }

/-- Lifecycle states reachable from a started manager. -/
inductive ReachableLife : LifeState → Prop
  | init : ReachableLife initLife
  | step {m m' : LifeState} : ReachableLife m → LifeStep m m' → ReachableLife m'

/-- The lifecycle invariant: once `run` has exited the transport stays
closed, and `stoppedCh` is closed only after `run` has exited. -/
def LifeInv (m : LifeState) : Prop :=
  (m.runExited = true → m.transportOpen = false) ∧
  (m.stoppedClosed = true → m.runExited = true)

/-- The lifecycle state after a completed first `Stop()`: `stopCh` closed
by `Stop`, `run` exited after observing the signal, `stoppedCh` closed by
`run`'s defer, transport closed. -/
def afterFirstStop : LifeState := ⟨true, true, true, false⟩

theorem Backoff.next_initial (b : Backoff) : (b.next.2).initial = b.initial := rfl

theorem Backoff.next_max (b : Backoff) : (b.next.2).max = b.max := rfl

theorem Backoff.next_multiplier (b : Backoff) : (b.next.2).multiplier = b.multiplier := rfl

theorem Backoff.after_initial (b : Backoff) (n : Nat) : (b.after n).initial = b.initial := by
  induction n with
  | zero => rfl
  | succ n ih => simpa [Backoff.after, Backoff.next_initial] using ih

theorem Backoff.after_max (b : Backoff) (n : Nat) : (b.after n).max = b.max := by
  induction n with
  | zero => rfl
  | succ n ih => simpa [Backoff.after, Backoff.next_max] using ih

theorem Backoff.after_multiplier (b : Backoff) (n : Nat) :
    (b.after n).multiplier = b.multiplier := by
  induction n with
  | zero => rfl
  | succ n ih => simpa [Backoff.after, Backoff.next_multiplier] using ih

theorem goTrunc_ge_self_int (c : Int) (m : ℚ) (hc : 0 ≤ c) (hm : 1 ≤ m) :
    c ≤ goTrunc ((c : ℚ) * m) := by
  have hq : (0 : ℚ) ≤ (c : ℚ) * m := by positivity
  have hle : (c : ℚ) ≤ (c : ℚ) * m := by
    calc (c : ℚ) = (c : ℚ) * 1 := by ring
    _ ≤ (c : ℚ) * m := by
        apply mul_le_mul_of_nonneg_left hm
        exact_mod_cast hc
  rw [goTrunc, if_pos hq]
  exact Int.le_floor.mpr hle

/-- The one-step invariant of the backoff calculator: when the current delay
is nonnegative and at most the maximum and the multiplier is at least 1, the
advanced delay is at least the old one, still at most the maximum, and still
nonnegative. -/
theorem Backoff.next_step_bounds (b : Backoff) (hm : 1 ≤ b.multiplier)
    (h0 : 0 ≤ b.current) (hmax : b.current ≤ b.max) :
    b.current ≤ (b.next.2).current ∧ (b.next.2).current ≤ b.max ∧
      0 ≤ (b.next.2).current := by
  have hg : b.current ≤ goTrunc ((b.current : ℚ) * b.multiplier) :=
    goTrunc_ge_self_int b.current b.multiplier h0 hm
  simp only [Backoff.next]
  by_cases hcap : goTrunc ((b.current : ℚ) * b.multiplier) > b.max
  · simp only [hcap, if_pos]
    exact ⟨hmax, le_refl _, le_trans h0 hmax⟩
  · simp only [hcap, if_neg, ite_false]
    exact ⟨hg, le_of_not_lt hcap, le_trans h0 hg⟩

theorem Backoff.after_bounds (b : Backoff) (hm : 1 ≤ b.multiplier)
    (h0 : 0 ≤ b.current) (hmax : b.current ≤ b.max) (n : Nat) :
    0 ≤ (b.after n).current ∧ (b.after n).current ≤ b.max := by
  induction n with
  | zero => simpa [Backoff.after] using And.intro h0 hmax
  | succ n ih =>
    have hm' : 1 ≤ (b.after n).multiplier := by rw [Backoff.after_multiplier]; exact hm
    have hmax' : (b.after n).current ≤ (b.after n).max := by
      rw [Backoff.after_max]; exact ih.2
    have step := Backoff.next_step_bounds (b.after n) hm' ih.1 hmax'
    refine ⟨step.2.2, ?_⟩
    have := step.2.1
    rw [Backoff.after_max] at this
    exact this

theorem Backoff.out_eq_current (b : Backoff) (n : Nat) : b.out n = (b.after n).current := rfl

theorem Backoff.out_mono_step (b : Backoff) (hm : 1 ≤ b.multiplier)
    (h0 : 0 ≤ b.current) (hmax : b.current ≤ b.max) (n : Nat) :
    b.out n ≤ b.out (n + 1) := by
  have hb := Backoff.after_bounds b hm h0 hmax n
  have hm' : 1 ≤ (b.after n).multiplier := by rw [Backoff.after_multiplier]; exact hm
  have hmax' : (b.after n).current ≤ (b.after n).max := by
    rw [Backoff.after_max]; exact hb.2
  have step := Backoff.next_step_bounds (b.after n) hm' hb.1 hmax'
  have e1 : b.out n = (b.after n).current := rfl
  have e2 : b.out (n + 1) = (((b.after n).next).2).current := rfl
  rw [e1, e2]
  exact step.1

/-- C4: with initial 100ms, max 1000ms and multiplier 2, successive `Next()`
calls return exactly 100, 200, 400, 800, 1000, 1000 ms; after a `Reset()` at
any point the next `Next()` call returns exactly 100ms; and in general
`Next()` returns the current delay and then sets the current delay to
min(current * multiplier, max) — the product being a `float64` converted back
to an integral duration by truncation — while `Reset()` sets the current delay
back to the initial delay. -/
theorem c4_backoff_sequence :
    (b100.out 0 = msDur 100 ∧ b100.out 1 = msDur 200 ∧ b100.out 2 = msDur 400 ∧
      b100.out 3 = msDur 800 ∧ b100.out 4 = msDur 1000 ∧ b100.out 5 = msDur 1000) ∧
    (∀ n : Nat, (((b100.after n).reset).next).1 = msDur 100) ∧
    (∀ b : Backoff, (b.next).1 = b.current ∧
      ((b.next).2).current = min (goTrunc ((b.current : ℚ) * b.multiplier)) b.max ∧
      (b.reset).current = b.initial) := by
  refine ⟨by norm_num [b100, newBackoff, Backoff.out, Backoff.after, Backoff.next,
    goTrunc, msDur], ?_, ?_⟩
  · intro n
    have e : (((b100.after n).reset).next).1 = ((b100.after n).reset).current := rfl
    rw [e]
    have e2 : ((b100.after n).reset).current = (b100.after n).initial := rfl
    rw [e2, Backoff.after_initial]
    rfl
  · intro b
    refine ⟨rfl, ?_, rfl⟩
    show (if goTrunc ((b.current : ℚ) * b.multiplier) > b.max then b.max
        else goTrunc ((b.current : ℚ) * b.multiplier)) =
      min (goTrunc ((b.current : ℚ) * b.multiplier)) b.max
    rcases le_or_lt (goTrunc ((b.current : ℚ) * b.multiplier)) b.max with h | h
    · rw [if_neg (not_lt.mpr h), min_eq_left h]
    · rw [if_pos h, min_eq_right (le_of_lt h)]

/-- C5 counterexample: for the calculator `bNeg`, initial ≤ max and
multiplier ≥ 1 hold, yet the second `Next()` value (−2s) is strictly below
the first (−1s), so the output sequence is not non-decreasing: the claim
fails when the initial delay is negative. -/
theorem c5_negative_initial_decreasing :
    bNeg.initial ≤ bNeg.max ∧ 1 ≤ bNeg.multiplier ∧ bNeg.out 1 < bNeg.out 0 := by
  refine ⟨by norm_num [bNeg, newBackoff], by norm_num [bNeg, newBackoff], ?_⟩
  norm_num [bNeg, newBackoff, Backoff.out, Backoff.after, Backoff.next, goTrunc]
  rw [show ((-2000000000 : ℚ)) = ((-2000000000 : ℤ) : ℚ) by norm_num, Int.ceil_intCast]
  norm_num

/-- C5 (amended with a nonnegative initial delay): for every backoff
calculator with 0 ≤ initial ≤ max and multiplier ≥ 1, the sequence of values
returned by successive `Next()` calls with no intervening `Reset()` is
non-decreasing and every returned value is bounded by max. -/
theorem c5_backoff_monotone_bounded (initial max : Int) (multiplier : ℚ)
    (h0 : 0 ≤ initial) (hmax : initial ≤ max) (hm : 1 ≤ multiplier) (n : Nat) :
    (newBackoff initial max multiplier).out n ≤
        (newBackoff initial max multiplier).out (n + 1) ∧
      (newBackoff initial max multiplier).out n ≤ max := by
  constructor
  · exact Backoff.out_mono_step (newBackoff initial max multiplier) hm h0 hmax n
  · have hb := Backoff.after_bounds (newBackoff initial max multiplier) hm h0 hmax n
    rw [Backoff.out_eq_current]
    exact hb.2

/-- C5 witness: the amended theorem applied to the concrete calculator with
initial 100ms, max 1000ms, multiplier 2 at step 0. -/
theorem c5_backoff_monotone_bounded_witness :
    b100.out 0 ≤ b100.out 1 ∧ b100.out 0 ≤ msDur 1000 :=
  c5_backoff_monotone_bounded (msDur 100) (msDur 1000) 2
    (by decide) (by decide) (by norm_num) 0

/-- C2 counterexample: two `error` first replies that differ only in the
retry-after hint (5 vs 10 seconds) produce identical `Connect` outcomes:
the same failure value (hence the same error string) and the same client
state. The failure returned by `Connect` therefore cannot carry the
server's retry hint, refuting the claim as stated. -/
theorem c2_retry_hint_not_carried :
    connectWithReply (rejectReply 5) = connectWithReply (rejectReply 10) ∧
      (connectWithReply (rejectReply 5)).1 =
        .error (.serverError "invalid_token" "Invalid token") ∧
      (ConnectError.serverError "invalid_token" "Invalid token").errString =
        "wait for welcome: server error: invalid_token - Invalid token" :=
  ⟨rfl, rfl, rfl⟩

/-- C2 (amended): for every Connect attempt whose dial and hello write
succeed, the outcome is decided by the first reply to `agent_hello`: a
decodable `welcome` reply populates server id, metrics interval, signing
key and commands-enabled and Connect succeeds; an `error` reply yields a
failure distinct from every protocol violation that carries the server's
code and message — but not the retry-after hint, which the code decodes
and discards; and any other reply type, an envelope-decode failure, a
welcome-decode failure, or a read failure/timeout yields a
protocol-violation failure. -/
theorem c2_connect_first_reply_amended (r : FirstReply) :
    (∀ p w, r = .frame "welcome" p → decodeWelcomePayload p = .ok w →
      connectWithReply r = (.ok (), { newClient with
        connPresent := true, transportOpen := true,
        serverID := w.serverID,
        metricsIntervalSeconds := w.metricsIntervalSeconds,
        signingPublicKey := w.signingPublicKey,
        commandsEnabled := w.commandsEnabled })) ∧
    (∀ p, r = .frame "error" p →
      (connectWithReply r).1 = .error (.serverError
        (decodeErrorPayloadLossy p).code (decodeErrorPayloadLossy p).message) ∧
      (ConnectError.serverError (decodeErrorPayloadLossy p).code
        (decodeErrorPayloadLossy p).message).isProtocolViolation = false) ∧
    (∀ d, r = .readError d → (connectWithReply r).1 = .error (.readFailed d) ∧
      (ConnectError.readFailed d).isProtocolViolation = true) ∧
    (∀ d, r = .badFrame d → (connectWithReply r).1 = .error (.unmarshalFailed d) ∧
      (ConnectError.unmarshalFailed d).isProtocolViolation = true) ∧
    (∀ p d, r = .frame "welcome" p → decodeWelcomePayload p = .error d →
      (connectWithReply r).1 = .error (.welcomeDecodeFailed d) ∧
      (ConnectError.welcomeDecodeFailed d).isProtocolViolation = true) ∧
    (∀ t p, r = .frame t p → t ≠ "welcome" → t ≠ "error" →
      (connectWithReply r).1 = .error (.unexpectedType t) ∧
      (ConnectError.unexpectedType t).isProtocolViolation = true) := by
  refine ⟨?_, ?_, ?_, ?_, ?_, ?_⟩
  · intro p w hr hw
    subst hr
    simp [connectWithReply, connect, waitForWelcome, newClient, hw]
  · intro p hr
    subst hr
    refine ⟨?_, rfl⟩
    simp [connectWithReply, connect, waitForWelcome, newClient]
  · intro d hr
    subst hr
    exact ⟨rfl, rfl⟩
  · intro d hr
    subst hr
    exact ⟨rfl, rfl⟩
  · intro p d hr hw
    subst hr
    refine ⟨?_, rfl⟩
    simp [connectWithReply, connect, waitForWelcome, newClient, hw]
  · intro t p hr ht he
    subst hr
    refine ⟨?_, rfl⟩
    simp [connectWithReply, connect, waitForWelcome, newClient, ht, he]

/-- C2 witness: the amended theorem applied to a concrete decodable
`welcome` first reply. -/
theorem c2_connect_first_reply_witness :
    connectWithReply (.frame "welcome" welcomeReplyJ) = (.ok (), { newClient with
      connPresent := true, transportOpen := true, serverID := "srv_123",
      metricsIntervalSeconds := 30, commandsEnabled := true }) :=
  (c2_connect_first_reply_amended (.frame "welcome" welcomeReplyJ)).1
    welcomeReplyJ ⟨"srv_123", 30, "", true⟩ rfl (by rfl)

/-- C3 (code bug): on a connect attempt in which the dial and the hello
write succeed and the server replies with an `error` frame, `Connect`
fails and closes the transport, but `c.conn` is never reset to nil on this
path, so `IsConnected()` reports true on the failed client: the full
rollback claimed by the spec does not happen, contradicting the
convention used elsewhere in the code (`readLoop` sets `c.conn = nil` to
"signal disconnection") and the contract of `IsConnected`. -/
theorem c3_failed_connect_leaves_isConnected_true :
    (connectWithReply (rejectReply 0)).1 =
        .error (.serverError "invalid_token" "Invalid token") ∧
      ((connectWithReply (rejectReply 0)).2).transportOpen = false ∧
      ((connectWithReply (rejectReply 0)).2).isConnected = true :=
  ⟨rfl, rfl, rfl⟩

theorem foldl_enqueueCommand (cs : List Command) (q : List Command)
    (h : q.length ≤ 10) :
    cs.foldl enqueueCommand q = q ++ cs.take (10 - q.length) := by
  induction cs generalizing q with
  | nil => simp
  | cons c cs ih =>
    rcases lt_or_eq_of_le h with hlt | heq
    · have hstep : enqueueCommand q c = q ++ [c] := by
        simp [enqueueCommand, hlt]
      have hlen : (q ++ [c]).length ≤ 10 := by
        simp only [List.length_append, List.length_singleton]
        omega
      have e : 10 - q.length = (10 - (q ++ [c]).length) + 1 := by
        simp only [List.length_append, List.length_singleton]
        omega
      rw [List.foldl_cons, hstep, ih (q ++ [c]) hlen, e, List.take_succ_cons,
        List.append_assoc, List.singleton_append]
    · have hstep : enqueueCommand q c = q := by
        simp [enqueueCommand, heq]
      have e : 10 - q.length = 0 := by omega
      rw [List.foldl_cons, hstep, ih q h, e]
      simp

/-- C6: the command-delivery queue is bounded at capacity 10 and preserves
FIFO order: a command arriving while the queue holds fewer than 10 items is
appended at the tail; a command arriving while the queue is full is
dropped, leaving every previously enqueued command unchanged; the bound 10
is invariant; and processing any arrival sequence from an empty queue
retains exactly the first 10 commands in arrival order. The enqueue is the
select's nonblocking send, so the read path never blocks. -/
theorem c6_command_queue_bounded_fifo :
    (∀ (q : List Command) (cmd : Command), q.length < 10 →
      enqueueCommand q cmd = q ++ [cmd]) ∧
    (∀ (q : List Command) (cmd : Command), q.length = 10 →
      enqueueCommand q cmd = q) ∧
    (∀ (q : List Command) (cmd : Command), q.length ≤ 10 →
      (enqueueCommand q cmd).length ≤ 10) ∧
    (∀ cmds : List Command, cmds.foldl enqueueCommand [] = cmds.take 10) := by
  refine ⟨?_, ?_, ?_, ?_⟩
  · intro q cmd h
    simp [enqueueCommand, h]
  · intro q cmd h
    simp [enqueueCommand, h]
  · intro q cmd h
    by_cases hlt : q.length < 10
    · simp only [enqueueCommand, hlt, if_pos, List.length_append,
        List.length_singleton]
      omega
    · simp [enqueueCommand, hlt, h]
  · intro cmds
    simpa using foldl_enqueueCommand cmds [] (by simp)

/-- C6 witness: the bounded-queue theorem applied to an empty queue and a
concrete command. -/
theorem c6_command_queue_witness :
    ([] : List Command).length < 10 ∧ enqueueCommand [] cmd0 = [cmd0] :=
  ⟨by decide, by simpa using c6_command_queue_bounded_fifo.1 [] cmd0 (by decide)⟩

/-- C7: for every command frame whose payload carries `id`,
`signed_payload` and `signature` of the expected types and whose
signed_payload holds `server_id`, `command`, `params`, `nonce` (typed) and
a numeric epoch-milliseconds `timestamp`, the `Command` enqueued for the
command-handler callback has exactly those values: server id, command,
params and nonce from `signed_payload`, the timestamp reconstructed by
`time.UnixMilli(int64(ts))`, the signature intact, and the raw
signed_payload mapping preserved unmodified. -/
theorem c7_command_fields_mapped (i s sid cname non : String)
    (ps sp : List (String × JVal)) (ts : ℚ) (q : List Command)
    (hsid : jlookup sp "server_id" = some (.str sid))
    (hcmd : jlookup sp "command" = some (.str cname))
    (hps : jlookup sp "params" = some (.obj ps))
    (hnon : jlookup sp "nonce" = some (.str non))
    (hts : jlookup sp "timestamp" = some (.num ts))
    (hq : q.length < 10) :
    decodeCommandPayload (.obj [("id", .str i), ("signed_payload", .obj sp),
      ("signature", .str s)]) = .ok ⟨i, sp, s⟩ ∧
    extractCommand ⟨i, sp, s⟩ = ⟨i, sid, cname, ps, non, goTrunc ts, s, sp⟩ ∧
    handleCommand (.obj [("id", .str i), ("signed_payload", .obj sp),
      ("signature", .str s)]) q =
      q ++ [⟨i, sid, cname, ps, non, goTrunc ts, s, sp⟩] := by
  have hdec : decodeCommandPayload (.obj [("id", .str i),
      ("signed_payload", .obj sp), ("signature", .str s)]) = .ok ⟨i, sp, s⟩ := rfl
  have hext : extractCommand ⟨i, sp, s⟩ =
      ⟨i, sid, cname, ps, non, goTrunc ts, s, sp⟩ := by
    simp [extractCommand, hsid, hcmd, hps, hnon, hts, JVal.asString?,
      JVal.asObj?, JVal.asNum?, Option.bind]
  refine ⟨hdec, hext, ?_⟩
  simp [handleCommand, hdec, hext, enqueueCommand, hq]

/-- C7 witness: the field-mapping theorem applied to a concrete command
frame matching the integration test. -/
theorem c7_command_fields_witness :
    handleCommand (.obj [("id", .str "cmd_456"),
      ("signed_payload", .obj signedPayload0), ("signature", .str "sig123")]) [] =
      [⟨"cmd_456", "srv_123", "analyze", [("table", .str "users")], "xyz",
        goTrunc ((1700000000000 : Int) : ℚ), "sig123", signedPayload0⟩] := by
  simpa using (c7_command_fields_mapped "cmd_456" "sig123" "srv_123" "analyze"
    "xyz" [("table", .str "users")] signedPayload0 ((1700000000000 : Int) : ℚ)
    [] rfl rfl rfl rfl rfl (by decide)).2.2

/-- C8: in the connected phase, a ping send failure ends the phase at once
with reason "ping failed", closing the client (and hence the transport), so
the run loop reconnects; whereas a metrics send failure on a metrics tick
is only logged: the phase continues with the remaining events and the state
unchanged. (The Go metrics provider `func() map[string]float64` has no
failure mode of its own; only the send can fail.) -/
theorem c8_ping_fail_ends_metrics_fail_continues (p : ConnectedPhase)
    (es : List PhaseEvent) (hconn : p.client.isConnected = true) :
    runConnectedEvents (.pingTick false :: es) p =
      (some "ping failed", { p with client := p.client.close }) ∧
    (ClientState.close p.client).transportOpen = false ∧
    runConnectedEvents (.idle true false :: es) p = runConnectedEvents es p := by
  have hclosed : p.client.closed = false := by
    simp only [ClientState.isConnected, Bool.and_eq_true, Bool.not_eq_eq_eq_not,
      Bool.not_true] at hconn
    exact hconn.2
  refine ⟨rfl, ?_, ?_⟩
  · simp [ClientState.close, hclosed]
  · simp only [runConnectedEvents, runConnectedStep, hconn, Bool.not_true,
      Bool.false_eq_true, if_false, Bool.true_and]
    by_cases hm : p.metricsHandlerSet <;> simp [hm]

/-- C8 witness: the theorem applied to the concrete phase `phase0` with no
further events. -/
theorem c8_ping_fail_witness :
    runConnectedEvents [PhaseEvent.pingTick false] phase0 =
      (some "ping failed", { phase0 with client := phase0.client.close }) ∧
    (ClientState.close phase0.client).transportOpen = false ∧
    runConnectedEvents [PhaseEvent.idle true false] phase0 =
      runConnectedEvents [] phase0 :=
  c8_ping_fail_ends_metrics_fail_continues phase0 [] rfl

/-- C9: in every run whose first handshake succeeds, the state trajectory
is exactly Disconnected, Connecting, Connected — no repeats, no skips —
and the observer sees exactly the two transitions Connecting then
Connected; in general `setState` notifies the observer exactly when the
state actually changes, once per change. -/
theorem c9_first_success_transitions (rest : List Bool) :
    (runUntilConnected (true :: rest) initMgrObs).visited =
      [.disconnected, .connecting, .connected] ∧
    (runUntilConnected (true :: rest) initMgrObs).notified =
      [.connecting, .connected] ∧
    (∀ (m : MgrObs) (s : MState), m.state = s →
      (setState s m).notified = m.notified) ∧
    (∀ (m : MgrObs) (s : MState), m.state ≠ s →
      (setState s m).notified = m.notified ++ [s]) := by
  refine ⟨rfl, rfl, ?_, ?_⟩
  · intro m s h
    simp [setState, h]
  · intro m s h
    simp [setState, h]

/-- C9 witness: re-setting the initial Disconnected state notifies
nothing. -/
theorem c9_first_success_witness :
    (setState .disconnected initMgrObs).notified = initMgrObs.notified :=
  (c9_first_success_transitions []).2.2.1 initMgrObs .disconnected rfl

/-- C10: whenever the manager has no live client, `ServerID()` and
`SigningPublicKey()` return the empty string, and `SendCommandResult`
returns `ErrNotConnected` without writing any frame and without changing
any manager state. -/
theorem c10_no_client_accessors (m : ManagerView) (r : CommandResultPayload)
    (writeOk : Bool) (writeDetail : String) (h : m.client = none) :
    m.serverID = "" ∧ m.signingPublicKey = "" ∧
      m.sendCommandResult r writeOk writeDetail =
        (.error .notConnected, m, []) := by
  simp [ManagerView.serverID, ManagerView.signingPublicKey,
    ManagerView.sendCommandResult, h]

/-- C10 witness: the theorem applied to a freshly created manager view
(no client, Disconnected). -/
theorem c10_no_client_witness :
    (ManagerView.mk none .disconnected).serverID = "" ∧
      (ManagerView.mk none .disconnected).signingPublicKey = "" ∧
      (ManagerView.mk none .disconnected).sendCommandResult result0 true "" =
        (.error .notConnected, ManagerView.mk none .disconnected, []) :=
  c10_no_client_accessors (ManagerView.mk none .disconnected) result0 true "" rfl

theorem lifeInv_of_reachable {m : LifeState} (h : ReachableLife m) : LifeInv m := by
  induction h with
  | init => exact ⟨fun h => by simp [initLife] at h, fun h => by simp [initLife] at h⟩
  | step _ hs ih =>
    cases hs with
    | connectOpen hrun =>
        refine ⟨fun h => ?_, fun h => ?_⟩
        · exact absurd (hrun.symm.trans h) (by simp)
        · exact ih.2 h
    | phaseClose =>
        exact ⟨fun _ => rfl, fun h => ih.2 h⟩
    | stopBegin hstop =>
        exact ⟨fun h => ih.1 h, fun h => ih.2 h⟩
    | runReturn hrun htr =>
        exact ⟨fun _ => htr, fun _ => rfl⟩
    | closeStopped hrun =>
        exact ⟨fun h => ih.1 h, fun _ => hrun⟩

theorem reachable_afterFirstStop : ReachableLife afterFirstStop := by
  have r1 : ReachableLife ⟨true, false, false, false⟩ :=
    ReachableLife.step ReachableLife.init (LifeStep.stopBegin initLife rfl)
  have r2 : ReachableLife ⟨true, false, true, false⟩ :=
    ReachableLife.step r1 (LifeStep.runReturn ⟨true, false, false, false⟩ rfl rfl)
  exact ReachableLife.step r2 (LifeStep.closeStopped ⟨true, false, true, false⟩ rfl)

/-- C1 counterexample: `afterFirstStop` is a reachable lifecycle state in
which a first `Stop()` call has completed (it closed `stopCh` and
`stoppedCh` is closed), and a second `Stop()` call from it panics —
`close(m.stopCh)` on the already-closed channel — rather than being a
no-op. -/
theorem c1_second_stop_panics :
    ReachableLife afterFirstStop ∧ afterFirstStop.stopClosed = true ∧
      afterFirstStop.stoppedClosed = true ∧
      (stopCall afterFirstStop).1 = .panicked :=
  ⟨reachable_afterFirstStop, rfl, rfl, rfl⟩

/-- C1 (amended): `Stop()` is synchronous — a `Stop()` call returns only
once `stoppedCh` has been closed, which happens only after the run loop
has exited with its connection's transport closed — but `Stop()` is not
idempotent: on every manager whose `stopCh` is already closed (in
particular after a completed first `Stop()`), a second `Stop()` call
panics by closing an already-closed channel. -/
theorem c1_stop_synchronous_amended (m : LifeState) (h : ReachableLife m) :
    ((stopCall m).1 = .returned →
      m.runExited = true ∧ m.transportOpen = false) ∧
    (m.stoppedClosed = true → m.runExited = true ∧ m.transportOpen = false) ∧
    (m.stopClosed = true → (stopCall m).1 = .panicked) := by
  have inv := lifeInv_of_reachable h
  refine ⟨?_, ?_, ?_⟩
  · intro hret
    by_cases hsc : m.stopClosed
    · simp [stopCall, hsc] at hret
    · by_cases hdc : m.stoppedClosed
      · exact ⟨inv.2 hdc, inv.1 (inv.2 hdc)⟩
      · simp [stopCall, hsc, hdc] at hret
  · intro hdc
    exact ⟨inv.2 hdc, inv.1 (inv.2 hdc)⟩
  · intro hsc
    simp [stopCall, hsc]

/-- C1 witness: the amended theorem applied to the reachable state after a
completed first `Stop()`. -/
theorem c1_stop_synchronous_witness :
    (((stopCall afterFirstStop).1 = StopOutcome.returned →
      afterFirstStop.runExited = true ∧ afterFirstStop.transportOpen = false) ∧
    (afterFirstStop.stoppedClosed = true →
      afterFirstStop.runExited = true ∧ afterFirstStop.transportOpen = false) ∧
    (afterFirstStop.stopClosed = true →
      (stopCall afterFirstStop).1 = StopOutcome.panicked)) :=
  c1_stop_synchronous_amended afterFirstStop reachable_afterFirstStop

end DeploydbAgent

